import Mathlib

/-!
Verification development for the chess-image-generator board renderer.

The JavaScript sources embedded here:
- `src/unnamed/part_000` — the `ChessImageGenerator` prototype with square
  highlighting (constructor, `loadPGN`, `loadFEN`, `loadArray`,
  `setHighlightedSquares`, `getSquareHighlight`, `generateBuffer`,
  `generatePNG`).  This is the primary variant, embedded in namespace
  `ChessImage`.
- `src/src/chess-image-generator.js` — a near-duplicate variant without
  highlighting, whose `generateBuffer` resolves column letters differently
  (`cols[col(j)]` with `col : c => 7 - c | c => c` instead of the inlined
  `cols[7 - c] | cols[c]`).  Its distinctive parts are embedded in namespace
  `ChessImage.V2`.

External collaborators are modelled by their interface, following the spec:
- the rules engine (chess.js) is modelled as a finite square-name-keyed map
  with `get` / `put` / `clear` primitives and with PGN/FEN parsing outcomes
  supplied as inputs (spec section 6: "consumes PGN text or FEN text, returns
  pass/fail"; section 4.1: a failed parse causes no state change);
- the 2D canvas is modelled as the list of draw operations issued against it,
  with text metrics (`measureText`) supplied as an input function;
- JavaScript numbers are modelled as rationals.
-/

namespace ChessImage

/-- Modelled from the spec: the repository's `config/index` module is not under
`src/`.  `cols` is the column-letter table, file a..h for indices 0..7
(spec sections 4.1 and 4.3: "file = column letter", "j=0 is file a"). -/
def cols : List String := ["a", "b", "c", "d", "e", "f", "g", "h"]

/-- Modelled from the spec: the `config/index` "white" alphabet — the
uppercase piece letters (spec section 4.1: "Case determines side (uppercase =
one side, lowercase = the other ... characters in a configured white
alphabet)"). -/
def white : List String := ["P", "N", "B", "R", "Q", "K"]

/-- Modelled from the spec: the `config/index` "black" alphabet — the
lowercase piece letters, also used by the source as the set of recognized
piece kinds (`black.includes(ch.toLowerCase())`). -/
def black : List String := ["p", "n", "b", "r", "q", "k"]

/-- Modelled from the spec: default pixel size from `config/index` (value not
given by the spec; no claim depends on it). -/
def defaultSize : Nat := 480

/-- Modelled from the spec: default light-square color from `config/index`
(value not given by the spec; no claim depends on it). -/
def defaultLight : String := "defaultLightColor"

/-- Modelled from the spec: default dark-square color from `config/index`
(value not given by the spec; no claim depends on it). -/
def defaultDark : String := "defaultDarkColor"

/-- Modelled from the spec: default highlight color from `config/index`
(value not given by the spec; no claim depends on it). -/
def defaultHighlight : String := "defaultHighlightColor"

/-- Modelled from the spec: default piece style from `config/index` (one of
the enumerated style names). -/
def defaultStyle : String := "merida"

/-- Modelled from the spec: the `config/index` fixed filename table mapping a
`color ++ type` key to a sprite file name (spec section 6: "addressed through
a fixed filename table"; the table's entries are not given by the spec, and no
claim depends on them, so the key itself stands in for the file name). -/
def filePaths (key : String) : String := key

/-- A JavaScript value as it can appear in the highlight map: `null` /
`undefined`, a boolean, a number, a string, or some other (always truthy)
object. -/
inductive JSVal where
  | vNull : JSVal
  | vUndefined : JSVal
  | vBool : Bool → JSVal
  | vNum : Int → JSVal
  | vStr : String → JSVal
  | vObj : JSVal
deriving DecidableEq

/-- JavaScript truthiness of a `JSVal`. -/
def truthy : JSVal → Bool
  | JSVal.vNull => false
  | JSVal.vUndefined => false
  | JSVal.vBool b => b
  | JSVal.vNum n => n != 0
  | JSVal.vStr s => s != ""
  | JSVal.vObj => true

/-- A piece as chess.js represents it: `{ type, color }`, both strings
(type is a lowercase piece letter, color is "w" or "b"). -/
structure Piece where
  type : String
  color : String
deriving DecidableEq

/-- The rules engine's board: a square-name-keyed map of pieces, modelled as
an association list (most recent `put` first). -/
def Board : Type := List (String × Piece)

/-- The list of the 64 valid square names ("a1".."h8"), used by the engine's
`put` to reject non-existent squares (spec section 3: "Entries for
non-existent squares are ignored"). -/
def allSquares : List String :=
  (List.range 8).flatMap (fun r => (List.range 8).map (fun f => cols.getD f "" ++ toString (r + 1)))

/-- Whether a square name denotes one of the 64 real squares. -/
def validSquare (sq : String) : Bool := allSquares.contains sq

/-- Engine query `chess.get(square)`: the piece at a square, if any. -/
def chessGet (sq : String) (b : Board) : Option Piece :=
  (List.find? (fun e => e.1 == sq) b).map (fun e => e.2)

/-- Engine primitive `chess.put(piece, square)`: stores the piece at the
square when the piece type is a recognized piece letter and the square exists;
otherwise the board is unchanged (chess.js returns false without placing). -/
def chessPut (p : Piece) (sq : String) (b : Board) : Board :=
  if black.contains p.type ∧ validSquare sq then (sq, p) :: b else b

/-- Engine primitive `chess.clear()`: empties the board. -/
def chessClear (_ : Board) : Board := ([] : List (String × Piece))

/-- The constructor's options object; `none` models an absent property
(JavaScript `undefined`). -/
structure Options where
  size : Option Nat := none
  light : Option String := none
  dark : Option String := none
  highlight : Option String := none
  style : Option String := none
  drawLabels : Option Bool := none
  labelLight : Option String := none
  labelDark : Option String := none
  flipped : Option Bool := none

/-- JavaScript `a || d` for an optional string property: the default is used
when the property is absent or falsy (the empty string). -/
def jsOrS (o : Option String) (d : String) : String :=
  match o with
  | none => d
  | some s => if s = "" then d else s

/-- JavaScript `a || d` for an optional numeric property: the default is used
when the property is absent or falsy (zero). -/
def jsOrN (o : Option Nat) (d : Nat) : Nat :=
  match o with
  | none => d
  | some n => if n = 0 then d else n

/-- The renderer's state, mirroring the fields assigned by the
`ChessImageGenerator` constructor of `src/unnamed/part_000`. -/
structure ChessImageGenerator where
  chess : Board
  size : Nat
  light : String
  dark : String
  highlight : String
  style : String
  drawLabels : Bool
  labelLight : String
  labelDark : String
  flipped : Bool
  highlightedSquares : Option (List (String × JSVal))
  ready : Bool

/-- The `ChessImageGenerator(options)` constructor (`src/unnamed/part_000`
lines 34-49): defaults via `||`, `drawLabels` via `options.drawLabels !==
false`, `flipped` via `options.flipped !== true`, label colors defaulting to
the opposite square colors, an empty highlight map, and `ready = false`. -/
def ChessImageGenerator.init (o : Options) : ChessImageGenerator :=
  let light := jsOrS o.light defaultLight
  let dark := jsOrS o.dark defaultDark
  { chess := chessClear []
    size := jsOrN o.size defaultSize
    light := light
    dark := dark
    highlight := jsOrS o.highlight defaultHighlight
    style := jsOrS o.style defaultStyle
    drawLabels := o.drawLabels != some false
    labelLight := jsOrS o.labelLight dark
    labelDark := jsOrS o.labelDark light
    flipped := o.flipped != some true
    highlightedSquares := some []
    ready := false }

/-- The square name `cols[j] + (8 - i)` built by `loadArray` for the cell at
row `i`, column `j` (`src/unnamed/part_000` line 91); the rank is computed in
the integers, as in JavaScript. -/
def targetSquare (i j : Nat) : String :=
  cols.getD j "undefined" ++ toString ((8 : Int) - (i : Int))

/-- One `loadArray` loop body (`src/unnamed/part_000` lines 85-93): a cell
that is non-empty and whose lowercasing is a recognized piece letter is `put`
at `cols[j] + (8 - i)`, with color "w" exactly when the literal character is
in the white alphabet; any other cell is skipped. -/
def placeCell (i j : Nat) (c : String) (b : Board) : Board :=
  if c ≠ "" ∧ black.contains c.toLower then
    chessPut { type := c.toLower, color := if white.contains c then "w" else "b" }
      (targetSquare i j) b
  else b

/-- The inner `loadArray` loop over the cells of row `i`, starting at column
index `j`. -/
def placeRow (i j : Nat) (cells : List String) (b : Board) : Board :=
  match cells with
  | [] => b
  | c :: rest => placeRow i (j + 1) rest (placeCell i j c b)

/-- The outer `loadArray` loop over the rows, starting at row index `i`. -/
def placeRows (i : Nat) (rows : List (List String)) (b : Board) : Board :=
  match rows with
  | [] => b
  | row :: rest => placeRows (i + 1) rest (placeRow i 0 row b)

/-- `loadArray(array)` (`src/unnamed/part_000` lines 80-97): clears the whole
board, then walks the grid placing recognized pieces. -/
def loadArray (b : Board) (grid : List (List String)) : Board :=
  placeRows 0 grid (chessClear b)

/-- The per-cell effect of `loadArray` on the board, as a value: the piece a
recognized cell character places, or `none` for an empty / whitespace /
unrecognized character. -/
def cellPiece (c : String) : Option Piece :=
  if c ≠ "" ∧ black.contains c.toLower then
    some { type := c.toLower, color := if white.contains c then "w" else "b" }
  else none

/-- `getSquareHighlight(square)` (`src/unnamed/part_000` lines 112-128):
`null` when the map is unset, the name is falsy, or the key is absent; then
`null` for a falsy value, the value itself for a string value, and the
configured default highlight color for any other (truthy) value. -/
def getSquareHighlight (g : ChessImageGenerator) (square : String) : Option String :=
  match g.highlightedSquares with
  | none => none
  | some hs =>
    if square = "" then none
    else
      match hs.lookup square with
      | none => none
      | some v =>
        if truthy v = false then none
        else
          match v with
          | JSVal.vStr s => some s
          | _ => some g.highlight

/-- `setHighlightedSquares(squares)` (`src/unnamed/part_000` lines 103-105). -/
def setHighlightedSquares (g : ChessImageGenerator)
    (squares : Option (List (String × JSVal))) : ChessImageGenerator :=
  { g with highlightedSquares := squares }

/-- A drawing operation issued against the canvas collaborator. -/
inductive DrawOp where
  | fillRect : String → Rat → Rat → Rat → Rat → DrawOp
  | fillText : String → String → Rat → Rat → DrawOp
  | drawImage : String → Rat → Rat → Rat → Rat → DrawOp
deriving DecidableEq

/-- Canvas text metrics, an input from the rasterizer collaborator: for a
string, its `actualBoundingBoxAscent` and its `width`. -/
def Measure : Type := String → Rat × Rat

/-- The render-loop row transform (`src/unnamed/part_000` line 149):
`this.flipped ? r => 7 - r + 1 : r => r + 1`. -/
def row (flipped : Bool) (r : Nat) : Nat :=
  if flipped then 7 - r + 1 else r + 1

/-- The render-loop column transform (`src/unnamed/part_000` line 150):
`this.flipped ? c => cols[7 - c] : c => cols[c]`. -/
def col (flipped : Bool) (c : Nat) : String :=
  if flipped then cols.getD (7 - c) "undefined" else cols.getD c "undefined"

/-- The logical square name `col(j) + row(i)` that the render loop associates
with grid cell `(i, j)` (`src/unnamed/part_000` line 191). -/
def squareOfCell (flipped : Bool) (i j : Nat) : String :=
  col flipped j ++ toString (row flipped i)

/-- Cell edge length `this.size / 8`. -/
def cellSize (g : ChessImageGenerator) : Rat := (g.size : Rat) / 8

/-- Label font size `this.size / 8 / 10` (`src/unnamed/part_000` line 145). -/
def fontSize (g : ChessImageGenerator) : Rat := (g.size : Rat) / 8 / 10

/-- Label text padding `fontSize * 0.5` (`src/unnamed/part_000` line 147). -/
def textPadding (g : ChessImageGenerator) : Rat := fontSize g * (1 / 2)

/-- Pixel x-origin of grid cell column `j`: `(this.size / 8) * j`. -/
def cellX (g : ChessImageGenerator) (j : Nat) : Rat := cellSize g * (j : Rat)

/-- Pixel y-origin of grid cell row `i`: `(this.size / 8) * (7 - i)`. -/
def cellY (g : ChessImageGenerator) (i : Nat) : Rat := cellSize g * (7 - (i : Rat))

/-- The "Fill Dark Square" block (`src/unnamed/part_000` lines 159-163): a
dark fill of the cell exactly when `(i + j) % 2 === 0`. -/
def darkFillOps (g : ChessImageGenerator) (i j : Nat) : List DrawOp :=
  if (i + j) % 2 = 0 then
    [DrawOp.fillRect g.dark (cellX g j) (cellY g i) (cellSize g) (cellSize g)]
  else []

/-- The "Draw Row Numbers" block (`src/unnamed/part_000` lines 166-176): when
labels are drawn and `j == 0`, the transformed row number, colored
`labelDark` for even `i` and `labelLight` for odd `i`, inset from the cell's
origin using the measured ascent. -/
def rankLabelOps (g : ChessImageGenerator) (m : Measure) (i j : Nat) : List DrawOp :=
  if g.drawLabels = true ∧ j = 0 then
    let text := toString (row g.flipped i)
    let letterHeight := (m text).1
    [DrawOp.fillText text (if i % 2 = 0 then g.labelDark else g.labelLight)
      (cellX g j + textPadding g) (cellY g i + letterHeight + textPadding g)]
  else []

/-- The "Draw Column Letters" block (`src/unnamed/part_000` lines 179-188):
when labels are drawn and `i == 0`, the transformed column letter, colored
`labelDark` for even `j` and `labelLight` for odd `j`, right- and
bottom-aligned in the cell using the measured width. -/
def fileLabelOps (g : ChessImageGenerator) (m : Measure) (i j : Nat) : List DrawOp :=
  if g.drawLabels = true ∧ i = 0 then
    let text := col g.flipped j
    let letterWidth := (m text).2
    [DrawOp.fillText text (if j % 2 = 0 then g.labelDark else g.labelLight)
      (cellX g j + cellSize g - letterWidth - textPadding g)
      (cellY g i + cellSize g - textPadding g)]
  else []

/-- The "Highlight Square" block (`src/unnamed/part_000` lines 190-196): a
fill of the cell with the resolved highlight color when that color is
truthy. -/
def highlightOps (g : ChessImageGenerator) (i j : Nat) : List DrawOp :=
  match getSquareHighlight g (squareOfCell g.flipped i j) with
  | none => []
  | some h =>
    if h ≠ "" then [DrawOp.fillRect h (cellX g j) (cellY g i) (cellSize g) (cellSize g)]
    else []

/-- The "Draw Piece" block (`src/unnamed/part_000` lines 198-210): query the
engine at the cell's logical square; when a piece with a recognized type is
there, draw its sprite scaled to the cell. -/
def pieceOps (g : ChessImageGenerator) (i j : Nat) : List DrawOp :=
  match chessGet (squareOfCell g.flipped i j) g.chess with
  | none => []
  | some p =>
    if p.type ≠ "" ∧ black.contains p.type.toLower then
      [DrawOp.drawImage ("resources/" ++ g.style ++ "/" ++ filePaths (p.color ++ p.type) ++ ".png")
        (cellX g j) (cellY g i) (cellSize g) (cellSize g)]
    else []

/-- One iteration of the render loop's body for cell `(i, j)`, in source
order: dark-square fill, row-number label, column-letter label, highlight,
piece sprite. -/
def cellOps (g : ChessImageGenerator) (m : Measure) (i j : Nat) : List DrawOp :=
  darkFillOps g i j ++ rankLabelOps g m i j ++ fileLabelOps g m i j ++
    highlightOps g i j ++ pieceOps g i j

/-- The full `i`-then-`j` render loop (`src/unnamed/part_000` lines
152-212). -/
def boardOps (g : ChessImageGenerator) (m : Measure) : List DrawOp :=
  (List.range 8).flatMap (fun i => (List.range 8).flatMap (fun j => cellOps g m i j))

/-- The renderer's failure modes: `notReady` is the "Load a position first"
error; `parseError` is the spec's InvalidNotation ("PGN/FEN could not be read
successfully"). -/
inductive RenderError where
  | notReady : RenderError
  | parseError : RenderError
deriving DecidableEq

/-- `generateBuffer()` (`src/unnamed/part_000` lines 134-215): fails with the
not-ready error before any successful load; otherwise issues the whole-canvas
light flood fill followed by the 64-cell loop's operations, and hands the
canvas to the encoder (the returned operation list). -/
def generateBuffer (g : ChessImageGenerator) (m : Measure) :
    Except RenderError (List DrawOp) :=
  if g.ready = true then
    Except.ok (DrawOp.fillRect g.light 0 0 ((g.size : Rat)) ((g.size : Rat)) :: boardOps g m)
  else Except.error RenderError.notReady

/-- `generatePNG(path)` (`src/unnamed/part_000` lines 221-240): the same
not-ready check, then `generateBuffer`; the file write itself is I/O on the
resulting buffer and is not modelled. -/
def generatePNG (g : ChessImageGenerator) (m : Measure) :
    Except RenderError (List DrawOp) :=
  if g.ready = true then generateBuffer g m
  else Except.error RenderError.notReady

/-- A load-phase operation on the renderer.  PGN and FEN parsing are owned by
the rules-engine collaborator (spec section 6), so a load op carries the
parse outcome: `none` for a rejected text, `some b` for the parsed board. -/
inductive LoadOp where
  | loadPGN : Option Board → LoadOp
  | loadFEN : Option Board → LoadOp
  | loadArrayOp : List (List String) → LoadOp
  | setHighlightsOp : Option (List (String × JSVal)) → LoadOp

/-- Run one load-phase operation, returning the call's outcome (the thrown
error, if any) and the renderer afterwards.  `loadPGN` / `loadFEN`
(`src/unnamed/part_000` lines 56-74): on a rejected parse the call throws and
the renderer is unchanged (a failed parse makes no state change, spec section
4.1); on success the position is replaced and `ready` is set.  `loadArray`
(lines 80-97) always succeeds and sets `ready`. -/
def runOp (g : ChessImageGenerator) : LoadOp → Except RenderError Unit × ChessImageGenerator
  | LoadOp.loadPGN none => (Except.error RenderError.parseError, g)
  | LoadOp.loadPGN (some b) => (Except.ok (), { g with chess := b, ready := true })
  | LoadOp.loadFEN none => (Except.error RenderError.parseError, g)
  | LoadOp.loadFEN (some b) => (Except.ok (), { g with chess := b, ready := true })
  | LoadOp.loadArrayOp grid =>
      (Except.ok (), { g with chess := loadArray g.chess grid, ready := true })
  | LoadOp.setHighlightsOp s => (Except.ok (), setHighlightedSquares g s)

/-- Run a sequence of load-phase operations. -/
def runTrace (g : ChessImageGenerator) (ops : List LoadOp) : ChessImageGenerator :=
  ops.foldl (fun g op => (runOp g op).2) g

/-- Whether a load-phase operation is a load that succeeds. -/
def successfulLoad : LoadOp → Bool
  | LoadOp.loadPGN (some _) => true
  | LoadOp.loadFEN (some _) => true
  | LoadOp.loadArrayOp _ => true
  | _ => false

/-- Predicate on draw operations: is a rectangle fill. -/
def isFillRect : DrawOp → Bool
  | DrawOp.fillRect _ _ _ _ _ => true
  | _ => false

/-- Predicate on draw operations: is a text draw. -/
def isFillText : DrawOp → Bool
  | DrawOp.fillText _ _ _ _ => true
  | _ => false

/-- Predicate on draw operations: is a sprite draw. -/
def isDrawImage : DrawOp → Bool
  | DrawOp.drawImage _ _ _ _ _ => true
  | _ => false

namespace V2

/-- The second variant's column transform (`src/src/chess-image-generator.js`
line 116): `this.flipped ? c => 7 - c : c => c`, an index into `cols`. -/
def col (flipped : Bool) (c : Nat) : Nat :=
  if flipped then 7 - c else c

/-- The second variant's row transform (`src/src/chess-image-generator.js`
line 115), textually identical to the first variant's. -/
def row (flipped : Bool) (r : Nat) : Nat :=
  if flipped then 7 - r + 1 else r + 1

/-- The column letter the second variant resolves for draw column `j`:
`cols[col(j)]` (`src/src/chess-image-generator.js` lines 146 and 158). -/
def colLetter (flipped : Bool) (j : Nat) : String :=
  cols.getD (col flipped j) "undefined"

/-- The logical square name the second variant associates with grid cell
`(i, j)`: `cols[col(j)] + row(i)` (`src/src/chess-image-generator.js`
line 158). -/
def squareOfCell (flipped : Bool) (i j : Nat) : String :=
  colLetter flipped j ++ toString (row flipped i)

end V2

/-! ### Basic facts about squares and the board map -/

theorem targetSquare_inj : ∀ i < 8, ∀ j < 8, ∀ i' < 8, ∀ j' < 8,
    (targetSquare i j = targetSquare i' j' ↔ (i = i' ∧ j = j')) := by decide

theorem validSquare_targetSquare : ∀ i < 8, ∀ j < 8, validSquare (targetSquare i j) = true := by
  decide

theorem squareName_eq_targetSquare : ∀ f < 8, ∀ r < 9, 1 ≤ r →
    cols.getD f "undefined" ++ toString r = targetSquare (8 - r) f := by decide

theorem chessGet_cons (sq' sq : String) (p : Piece) (b : Board) :
    chessGet sq' ((sq, p) :: b) = if sq = sq' then some p else chessGet sq' b := by
  by_cases h : sq = sq'
  · subst h
    simp [chessGet, List.find?_cons_of_pos]
  · have hb : ((sq, p).1 == sq') = false := by
      simp [h]
    simp [chessGet, List.find?_cons_of_neg, hb, h]

theorem chessGet_nil (sq : String) : chessGet sq ([] : Board) = none := rfl

/-- The first defined of two optional pieces (how a later board write shadows
an earlier one when reading a square). -/
def firstSome (a b : Option Piece) : Option Piece :=
  match a with
  | some p => some p
  | none => b

theorem get_placeCell (i j : Nat) (hi : i < 8) (hj : j < 8) (c : String) (b : Board)
    (i₀ j₀ : Nat) (hi₀ : i₀ < 8) (hj₀ : j₀ < 8) :
    chessGet (targetSquare i₀ j₀) (placeCell i j c b) =
      firstSome (if i = i₀ ∧ j = j₀ then cellPiece c else none)
        (chessGet (targetSquare i₀ j₀) b) := by
  by_cases hg : c ≠ "" ∧ black.contains c.toLower
  · have hput : placeCell i j c b =
        (targetSquare i j,
          ({ type := c.toLower, color := if white.contains c then "w" else "b" } : Piece)) :: b := by
      unfold placeCell chessPut
      rw [if_pos hg, if_pos]
      constructor
      · exact hg.2
      · exact validSquare_targetSquare i hi j hj
    rw [hput, chessGet_cons]
    by_cases heq : i = i₀ ∧ j = j₀
    · obtain ⟨h1, h2⟩ := heq
      subst h1; subst h2
      rw [if_pos (show targetSquare i j = targetSquare i j from rfl),
        if_pos (show i = i ∧ j = j from ⟨rfl, rfl⟩)]
      unfold cellPiece
      rw [if_pos hg]
      rfl
    · have hne : targetSquare i j ≠ targetSquare i₀ j₀ := by
        intro hcon
        exact heq ((targetSquare_inj i hi j hj i₀ hi₀ j₀ hj₀).1 hcon)
      rw [if_neg hne, if_neg heq]
      rfl
  · have h1 : placeCell i j c b = b := by
      unfold placeCell
      rw [if_neg hg]
    have h2 : cellPiece c = none := by
      unfold cellPiece
      rw [if_neg hg]
    rw [h1, h2]
    by_cases heq : i = i₀ ∧ j = j₀
    · rw [if_pos heq]; rfl
    · rw [if_neg heq]; rfl

theorem firstSome_none (a : Option Piece) : firstSome a none = a := by
  cases a <;> rfl

theorem get_placeRow (i : Nat) (hi : i < 8) (cells : List String) (j : Nat) (b : Board)
    (hle : j + cells.length ≤ 8)
    (i₀ j₀ : Nat) (hi₀ : i₀ < 8) (hj₀ : j₀ < 8) :
    chessGet (targetSquare i₀ j₀) (placeRow i j cells b) =
      firstSome
        (if i = i₀ ∧ j ≤ j₀ ∧ j₀ - j < cells.length then cellPiece (cells.getD (j₀ - j) "")
         else none)
        (chessGet (targetSquare i₀ j₀) b) := by
  induction cells generalizing j b with
  | nil =>
    rw [if_neg (by intro h; simp only [List.length_nil] at h; omega)]
    rfl
  | cons c rest ih =>
    simp only [List.length_cons] at hle ⊢
    have hj : j < 8 := by omega
    show chessGet _ (placeRow i (j + 1) rest (placeCell i j c b)) = _
    rw [ih (j + 1) (placeCell i j c b) (by omega),
      get_placeCell i j hi hj c b i₀ j₀ hi₀ hj₀]
    by_cases hii : i = i₀
    · subst hii
      by_cases hjj : j = j₀
      · subst hjj
        have hA : ¬(i = i ∧ j + 1 ≤ j ∧ j - (j + 1) < rest.length) := by omega
        have hB : i = i ∧ j ≤ j ∧ j - j < rest.length + 1 := ⟨rfl, by omega, by omega⟩
        have hC : i = i ∧ j = j := ⟨rfl, rfl⟩
        rw [if_neg hA, if_pos hB, show j - j = 0 from by omega, List.getD_cons_zero,
          if_pos hC]
        rfl
      · by_cases hlt : j < j₀
        · have hC : ¬(i = i ∧ j = j₀) := by omega
          rw [if_neg hC]
          obtain ⟨k, hk⟩ : ∃ k, j₀ - j = k + 1 := ⟨j₀ - j - 1, by omega⟩
          have hk2 : j₀ - (j + 1) = k := by omega
          rw [hk, hk2, List.getD_cons_succ,
            if_congr (show (i = i ∧ j + 1 ≤ j₀ ∧ k < rest.length) ↔
                (i = i ∧ j ≤ j₀ ∧ k + 1 < rest.length + 1) from by
              constructor <;> (intro h; exact ⟨rfl, by omega, by omega⟩)) rfl rfl]
          rfl
        · have hA : ¬(i = i ∧ j + 1 ≤ j₀ ∧ j₀ - (j + 1) < rest.length) := by omega
          have hB : ¬(i = i ∧ j ≤ j₀ ∧ j₀ - j < rest.length + 1) := by omega
          have hC : ¬(i = i ∧ j = j₀) := by omega
          rw [if_neg hA, if_neg hB, if_neg hC]
          rfl
    · have hA : ¬(i = i₀ ∧ j + 1 ≤ j₀ ∧ j₀ - (j + 1) < rest.length) := fun h => hii h.1
      have hB : ¬(i = i₀ ∧ j ≤ j₀ ∧ j₀ - j < rest.length + 1) := fun h => hii h.1
      have hC : ¬(i = i₀ ∧ j = j₀) := fun h => hii h.1
      rw [if_neg hA, if_neg hB, if_neg hC]
      rfl

theorem get_placeRows (rows : List (List String)) (i : Nat) (b : Board)
    (hle : i + rows.length ≤ 8) (hrows : ∀ row ∈ rows, row.length ≤ 8)
    (i₀ j₀ : Nat) (hi₀ : i₀ < 8) (hj₀ : j₀ < 8) :
    chessGet (targetSquare i₀ j₀) (placeRows i rows b) =
      firstSome
        (if i ≤ i₀ ∧ i₀ - i < rows.length then cellPiece ((rows.getD (i₀ - i) []).getD j₀ "")
         else none)
        (chessGet (targetSquare i₀ j₀) b) := by
  induction rows generalizing i b with
  | nil =>
    rw [if_neg (by intro h; simp only [List.length_nil] at h; omega)]
    rfl
  | cons rw0 rest ih =>
    simp only [List.length_cons] at hle ⊢
    have hi : i < 8 := by omega
    show chessGet _ (placeRows (i + 1) rest (placeRow i 0 rw0 b)) = _
    rw [ih (i + 1) (placeRow i 0 rw0 b) (by omega)
        (fun r hr => hrows r (List.mem_cons_of_mem _ hr)),
      get_placeRow i hi rw0 0 b
        (by simpa using hrows rw0 (List.mem_cons_self rw0 rest)) i₀ j₀ hi₀ hj₀]
    simp only [Nat.zero_le, true_and, Nat.sub_zero]
    by_cases hii : i = i₀
    · subst hii
      have hA : ¬(i + 1 ≤ i ∧ i - (i + 1) < rest.length) := by omega
      have hB : i ≤ i ∧ i - i < rest.length + 1 := ⟨by omega, by omega⟩
      rw [if_neg hA, if_pos hB, show i - i = 0 from by omega, List.getD_cons_zero]
      by_cases hjr : j₀ < rw0.length
      · have hC : i = i ∧ j₀ < rw0.length := ⟨rfl, hjr⟩
        rw [if_pos hC]
        rfl
      · have hC : ¬(i = i ∧ j₀ < rw0.length) := by omega
        rw [if_neg hC,
          show rw0.getD j₀ "" = "" from List.getD_eq_default _ _ (by omega),
          show cellPiece "" = none from by decide]
        rfl
    · by_cases hlt : i < i₀
      · have hC : ¬(i = i₀ ∧ j₀ < rw0.length) := fun h => hii h.1
        rw [if_neg hC]
        obtain ⟨k, hk⟩ : ∃ k, i₀ - i = k + 1 := ⟨i₀ - i - 1, by omega⟩
        have hk2 : i₀ - (i + 1) = k := by omega
        rw [hk, hk2, List.getD_cons_succ,
          if_congr (show (i + 1 ≤ i₀ ∧ k < rest.length) ↔
              (i ≤ i₀ ∧ k + 1 < rest.length + 1) from by
            constructor <;> (intro h; exact ⟨by omega, by omega⟩)) rfl rfl]
        rfl
      · have hA : ¬(i + 1 ≤ i₀ ∧ i₀ - (i + 1) < rest.length) := by omega
        have hB : ¬(i ≤ i₀ ∧ i₀ - i < rest.length + 1) := by omega
        have hC : ¬(i = i₀ ∧ j₀ < rw0.length) := fun h => hii h.1
        rw [if_neg hA, if_neg hB, if_neg hC]
        rfl

/-- Claim C3: `loadArray` first clears the whole board (the result does not
depend on the residual position), and then, cell by cell, an empty string,
whitespace or unrecognized character leaves the square empty while a
recognized piece letter places a piece of that kind at file = column letter
for `j`, rank `8 - i`, white exactly when the literal character is in the
configured white alphabet: reading back any square `cols[f] ++ r` returns
exactly the decoded content of grid cell `(8 - r, f)`. -/
theorem c3_loadArray_reconstruction (b : Board) (grid : List (List String))
    (hlen : grid.length ≤ 8) (hrows : ∀ row ∈ grid, row.length ≤ 8)
    (f r : Nat) (hf : f < 8) (hr1 : 1 ≤ r) (hr8 : r ≤ 8) :
    loadArray b grid = loadArray [] grid ∧
    chessGet (cols.getD f "undefined" ++ toString r) (loadArray b grid) =
      cellPiece ((grid.getD (8 - r) []).getD f "") := by
  constructor
  · rfl
  · rw [squareName_eq_targetSquare f hf r (by omega) hr1]
    unfold loadArray chessClear
    rw [get_placeRows grid 0 ([] : Board) (by omega) hrows (8 - r) f (by omega) hf,
      chessGet_nil, firstSome_none]
    simp only [Nat.zero_le, true_and, Nat.sub_zero]
    by_cases hg : 8 - r < grid.length
    · rw [if_pos hg]
    · rw [if_neg hg,
        show grid.getD (8 - r) [] = [] from List.getD_eq_default _ _ (by omega)]
      rfl

/-- Claim C3 witness: a concrete 2×3 grid with a black rook at a8, an
unrecognized character, whitespace, and a white king at b7; read back through
the engine query at a8, b7, and an untouched square. -/
theorem c3_witness :
    ([["r", "x", ""], [" ", "K"]] : List (List String)).length ≤ 8 ∧
    (∀ row ∈ ([["r", "x", ""], [" ", "K"]] : List (List String)), row.length ≤ 8) ∧
    (0 : Nat) < 8 ∧ (1 : Nat) ≤ 8 ∧ (8 : Nat) ≤ 8 ∧
    (loadArray [("e4", { type := "q", color := "w" })] [["r", "x", ""], [" ", "K"]] =
        loadArray [] [["r", "x", ""], [" ", "K"]] ∧
      chessGet (cols.getD 0 "undefined" ++ toString (8 : Nat))
          (loadArray [("e4", { type := "q", color := "w" })] [["r", "x", ""], [" ", "K"]]) =
        cellPiece ((([["r", "x", ""], [" ", "K"]] : List (List String)).getD (8 - 8) []).getD 0 "")) ∧
    (loadArray [] [["r", "x", ""], [" ", "K"]] = loadArray [] [["r", "x", ""], [" ", "K"]] ∧
      chessGet (cols.getD 1 "undefined" ++ toString (7 : Nat))
          (loadArray [] [["r", "x", ""], [" ", "K"]]) =
        cellPiece ((([["r", "x", ""], [" ", "K"]] : List (List String)).getD (8 - 7) []).getD 1 "")) := by
  refine ⟨by decide, by decide, by decide, by decide, by decide, ?_, ?_⟩
  · exact c3_loadArray_reconstruction _ _ (by decide) (by decide) 0 8 (by decide) (by decide)
      (by decide)
  · exact c3_loadArray_reconstruction _ _ (by decide) (by decide) 1 7 (by decide) (by decide)
      (by decide)

/-! ### Claim C1: grid-cell-to-square mapping per flip option -/

/-- Claim C1 counterexample: for a renderer constructed with the flipped
option unset (the default), the internal `flipped` field is `true`
(`options.flipped !== true`), and render cell `(0, 0)` resolves to the square
"h8" — not to `columnLetter(0)` and rank `0 + 1` ("a1") as the claim
states. -/
theorem c1_counterexample :
    (ChessImageGenerator.init {}).flipped = true ∧
    squareOfCell (ChessImageGenerator.init {}).flipped 0 0 = "h8" ∧
    squareOfCell (ChessImageGenerator.init {}).flipped 0 0 ≠
      cols.getD 0 "undefined" ++ toString (0 + 1) := by decide

/-- Claim C1 (amended): the constructor sets `flipped` to `options.flipped
!== true`, so a renderer with the flipped option unset or false maps grid
cell `(i, j)` to file `columnLetter(7 - j)`, rank `8 - i` (the 180°-rotated
orientation), while a renderer constructed with flipped = true maps cell
`(i, j)` to file `columnLetter(j)`, rank `i + 1` (white at the bottom) — the
two orientations are swapped relative to the option value named in the
claim. -/
theorem c1_cell_to_square_mapping (o : Options) (i j : Nat) (hi : i < 8) (hj : j < 8) :
    (o.flipped ≠ some true →
      (ChessImageGenerator.init o).flipped = true ∧
      squareOfCell (ChessImageGenerator.init o).flipped i j =
        cols.getD (7 - j) "undefined" ++ toString (8 - i)) ∧
    (o.flipped = some true →
      (ChessImageGenerator.init o).flipped = false ∧
      squareOfCell (ChessImageGenerator.init o).flipped i j =
        cols.getD j "undefined" ++ toString (i + 1)) := by
  constructor
  · intro h
    have hflip : (ChessImageGenerator.init o).flipped = true := by
      show (o.flipped != some true) = true
      exact bne_iff_ne.mpr h
    refine ⟨hflip, ?_⟩
    rw [hflip]
    unfold squareOfCell col row
    rw [if_pos rfl, if_pos rfl, show 7 - i + 1 = 8 - i from by omega]
  · intro h
    have hflip : (ChessImageGenerator.init o).flipped = false := by
      show (o.flipped != some true) = false
      simp [h]
    refine ⟨hflip, ?_⟩
    rw [hflip]
    unfold squareOfCell col row
    rw [if_neg Bool.false_ne_true, if_neg Bool.false_ne_true]

/-- Claim C1 witness: the amended mapping instantiated for the default
options at cell `(0, 0)`. -/
theorem c1_mapping_witness :
    (0 : Nat) < 8 ∧
    ((({} : Options).flipped ≠ some true →
        (ChessImageGenerator.init {}).flipped = true ∧
        squareOfCell (ChessImageGenerator.init {}).flipped 0 0 =
          cols.getD (7 - 0) "undefined" ++ toString (8 - 0)) ∧
      (({} : Options).flipped = some true →
        (ChessImageGenerator.init {}).flipped = false ∧
        squareOfCell (ChessImageGenerator.init {}).flipped 0 0 =
          cols.getD 0 "undefined" ++ toString (0 + 1))) :=
  ⟨by decide, c1_cell_to_square_mapping {} 0 0 (by decide) (by decide)⟩

/-! ### Claim C7: flip is a 180° rotation and square colors are invariant -/

/-- Claim C7: for every grid cell, the flipped render's cell `(i, j)` shows
the same logical square as the unflipped render's cell `(7 - i, 7 - j)` (the
piece-to-square assignment under flip is the 180° rotation), and those two
cells have equal `(i + j)` parity — so the base dark/light fill of any given
logical square is invariant under the flip flag. -/
theorem c7_flip_rotation_and_color_invariance : ∀ i, i < 8 → ∀ j, j < 8 →
    squareOfCell true i j = squareOfCell false (7 - i) (7 - j) ∧
    ((7 - i) + (7 - j)) % 2 = (i + j) % 2 := by decide

/-- Claim C7 witness: the rotation and parity facts at cell `(0, 1)`. -/
theorem c7_witness :
    squareOfCell true 0 1 = squareOfCell false (7 - 0) (7 - 1) ∧
    ((7 - 0) + (7 - 1)) % 2 = (0 + 1) % 2 :=
  c7_flip_rotation_and_color_invariance 0 (by decide) 1 (by decide)

/-! ### Claim C9: the two source variants resolve the same column letters -/

/-- Claim C9: for every draw column and both values of the flip flag, the
column letter of the first variant (`cols[7 - c]` / `cols[c]` inlined) equals
the column letter of the second variant (`cols[col(j)]` with
`col : c => 7 - c | c => c`), and hence the two variants build identical
square names at every cell. -/
theorem c9_variants_resolve_same_columns : ∀ fl : Bool, ∀ j, j < 8 →
    col fl j = V2.colLetter fl j ∧
    ∀ i, i < 8 → squareOfCell fl i j = V2.squareOfCell fl i j := by decide

/-- Claim C9 witness: agreement of the two variants at column 0, cell
`(3, 0)`, with the flip flag set. -/
theorem c9_witness :
    col true 0 = V2.colLetter true 0 ∧
    squareOfCell true 3 0 = V2.squareOfCell true 3 0 :=
  ⟨(c9_variants_resolve_same_columns true 0 (by decide)).1,
    (c9_variants_resolve_same_columns true 0 (by decide)).2 3 (by decide)⟩

/-! ### Claims C5 and C6: readiness and load-failure atomicity -/

theorem runOp_ready_mono (g : ChessImageGenerator) (op : LoadOp) (h : g.ready = true) :
    ((runOp g op).2).ready = true := by
  cases op with
  | loadPGN p => cases p with | none => exact h | some b => rfl
  | loadFEN p => cases p with | none => exact h | some b => rfl
  | loadArrayOp grid => rfl
  | setHighlightsOp s => exact h

theorem runTrace_ready_mono (ops : List LoadOp) (g : ChessImageGenerator)
    (h : g.ready = true) : (runTrace g ops).ready = true := by
  induction ops generalizing g with
  | nil => exact h
  | cons op rest ih => exact ih _ (runOp_ready_mono g op h)

theorem runOp_ready_of_unsuccessful (g : ChessImageGenerator) (op : LoadOp)
    (h : successfulLoad op = false) : ((runOp g op).2).ready = g.ready := by
  cases op with
  | loadPGN p => cases p with | none => rfl | some b => simp [successfulLoad] at h
  | loadFEN p => cases p with | none => rfl | some b => simp [successfulLoad] at h
  | loadArrayOp grid => simp [successfulLoad] at h
  | setHighlightsOp s => rfl

theorem runTrace_ready_of_no_success (ops : List LoadOp) (g : ChessImageGenerator)
    (h : ∀ op ∈ ops, successfulLoad op = false) : (runTrace g ops).ready = g.ready := by
  induction ops generalizing g with
  | nil => rfl
  | cons op rest ih =>
    show (runTrace (runOp g op).2 rest).ready = g.ready
    rw [ih _ (fun o ho => h o (List.mem_cons_of_mem _ ho)),
      runOp_ready_of_unsuccessful g op (h op (List.mem_cons_self op rest))]

theorem runOp_ready_of_successful (g : ChessImageGenerator) (op : LoadOp)
    (h : successfulLoad op = true) : ((runOp g op).2).ready = true := by
  cases op with
  | loadPGN p => cases p with | none => simp [successfulLoad] at h | some b => rfl
  | loadFEN p => cases p with | none => simp [successfulLoad] at h | some b => rfl
  | loadArrayOp grid => rfl
  | setHighlightsOp s => simp [successfulLoad] at h

theorem runTrace_append (g : ChessImageGenerator) (l1 l2 : List LoadOp) :
    runTrace g (l1 ++ l2) = runTrace (runTrace g l1) l2 := by
  unfold runTrace
  exact List.foldl_append _ _ l1 l2

/-- Claim C5: for every renderer on which no load has succeeded (any trace of
failed loads and highlight updates after construction), the ready flag is
still false and both `generateBuffer` and `generatePNG` fail with the
not-ready error, producing no operation list; and after any successful load,
anywhere in the trace, `generateBuffer` never fails with the not-ready
error. -/
theorem c5_not_ready_semantics :
    (∀ o : Options, ∀ trace : List LoadOp,
      (∀ op ∈ trace, successfulLoad op = false) →
      (runTrace (ChessImageGenerator.init o) trace).ready = false ∧
      ∀ m : Measure,
        generateBuffer (runTrace (ChessImageGenerator.init o) trace) m =
          Except.error RenderError.notReady ∧
        generatePNG (runTrace (ChessImageGenerator.init o) trace) m =
          Except.error RenderError.notReady) ∧
    (∀ o : Options, ∀ pre post : List LoadOp, ∀ op : LoadOp,
      successfulLoad op = true →
      (runTrace (ChessImageGenerator.init o) (pre ++ op :: post)).ready = true ∧
      ∀ m : Measure,
        generateBuffer (runTrace (ChessImageGenerator.init o) (pre ++ op :: post)) m ≠
          Except.error RenderError.notReady) := by
  constructor
  · intro o trace h
    have hready : (runTrace (ChessImageGenerator.init o) trace).ready = false := by
      rw [runTrace_ready_of_no_success trace _ h]
      rfl
    refine ⟨hready, fun m => ?_⟩
    constructor
    · simp [generateBuffer, hready]
    · simp [generatePNG, hready]
  · intro o pre post op h
    have hready : (runTrace (ChessImageGenerator.init o) (pre ++ op :: post)).ready = true := by
      rw [runTrace_append]
      show (runTrace (runOp (runTrace (ChessImageGenerator.init o) pre) op).2 post).ready = true
      exact runTrace_ready_mono post _ (runOp_ready_of_successful _ op h)
    refine ⟨hready, fun m => ?_⟩
    simp [generateBuffer, hready]

/-- Claim C5 witness: a renderer whose only operation is a highlight update
is still not ready and renders nothing; after an (empty-grid) array load it
is ready and `generateBuffer` does not fail with the not-ready error. -/
theorem c5_witness :
    ((runTrace (ChessImageGenerator.init {}) [LoadOp.setHighlightsOp none]).ready = false ∧
      generateBuffer (runTrace (ChessImageGenerator.init {}) [LoadOp.setHighlightsOp none])
          (fun _ => (0, 0)) =
        Except.error RenderError.notReady) ∧
    ((runTrace (ChessImageGenerator.init {}) ([] ++ LoadOp.loadArrayOp [] :: [])).ready = true ∧
      generateBuffer (runTrace (ChessImageGenerator.init {}) ([] ++ LoadOp.loadArrayOp [] :: []))
          (fun _ => (0, 0)) ≠
        Except.error RenderError.notReady) := by
  have h1 := c5_not_ready_semantics.1 {} [LoadOp.setHighlightsOp none]
    (by intro op hop; simp only [List.mem_singleton] at hop; subst hop; rfl)
  have h2 := c5_not_ready_semantics.2 {} [] [] (LoadOp.loadArrayOp []) rfl
  exact ⟨⟨h1.1, (h1.2 _).1⟩, ⟨h2.1, h2.2 _⟩⟩

/-- Claim C6: a rejected PGN or FEN parse makes the load call fail with the
invalid-input error and leaves the renderer completely unchanged (in
particular, the ready flag and the board are exactly as before, and a
renderer already marked ready stays ready); a successful parse replaces the
position and marks the renderer ready. -/
theorem c6_load_failure_atomicity :
    (∀ g : ChessImageGenerator,
      runOp g (LoadOp.loadPGN none) = (Except.error RenderError.parseError, g) ∧
      runOp g (LoadOp.loadFEN none) = (Except.error RenderError.parseError, g)) ∧
    (∀ g : ChessImageGenerator, ∀ b : Board,
      runOp g (LoadOp.loadPGN (some b)) =
        (Except.ok (), { g with chess := b, ready := true }) ∧
      runOp g (LoadOp.loadFEN (some b)) =
        (Except.ok (), { g with chess := b, ready := true })) ∧
    (∀ g : ChessImageGenerator, ∀ parsed : Option Board, g.ready = true →
      ((runOp g (LoadOp.loadPGN parsed)).2).ready = true ∧
      ((runOp g (LoadOp.loadFEN parsed)).2).ready = true) := by
  refine ⟨fun g => ⟨rfl, rfl⟩, fun g b => ⟨rfl, rfl⟩, fun g parsed h => ?_⟩
  cases parsed with
  | none => exact ⟨h, h⟩
  | some b => exact ⟨rfl, rfl⟩

/-- Claim C6 witness: a renderer made ready by an array load stays ready
across a failed PGN parse and a failed FEN parse. -/
theorem c6_witness :
    ((runOp ((runOp (ChessImageGenerator.init {}) (LoadOp.loadArrayOp [])).2)
        (LoadOp.loadPGN none)).2).ready = true ∧
    ((runOp ((runOp (ChessImageGenerator.init {}) (LoadOp.loadArrayOp [])).2)
        (LoadOp.loadFEN none)).2).ready = true :=
  c6_load_failure_atomicity.2.2 _ none rfl

/-! ### Extraction of draw-operation classes from the render loop -/

theorem filter_flatMap_list {α β : Type} (l : List α) (f : α → List β) (p : β → Bool) :
    (l.flatMap f).filter p = l.flatMap (fun a => (f a).filter p) := by
  induction l with
  | nil => rfl
  | cons a t ih => simp only [List.flatMap_cons, List.filter_append, ih]

theorem darkFillOps_filter_fillRect (g : ChessImageGenerator) (i j : Nat) :
    (darkFillOps g i j).filter isFillRect = darkFillOps g i j := by
  unfold darkFillOps
  split <;> rfl

theorem rankLabelOps_filter_fillRect (g : ChessImageGenerator) (m : Measure) (i j : Nat) :
    (rankLabelOps g m i j).filter isFillRect = [] := by
  unfold rankLabelOps
  split <;> rfl

theorem fileLabelOps_filter_fillRect (g : ChessImageGenerator) (m : Measure) (i j : Nat) :
    (fileLabelOps g m i j).filter isFillRect = [] := by
  unfold fileLabelOps
  split <;> rfl

theorem pieceOps_filter_fillRect (g : ChessImageGenerator) (i j : Nat) :
    (pieceOps g i j).filter isFillRect = [] := by
  unfold pieceOps
  cases hc : chessGet (squareOfCell g.flipped i j) g.chess with
  | none => rfl
  | some p => split <;> first | rfl | (split <;> rfl)

theorem getSquareHighlight_of_empty_map (g : ChessImageGenerator)
    (h : g.highlightedSquares = some []) (sq : String) : getSquareHighlight g sq = none := by
  unfold getSquareHighlight
  rw [h]
  by_cases hq : sq = ""
  · simp [hq]
  · simp [hq]

theorem highlightOps_of_empty_map (g : ChessImageGenerator) (i j : Nat)
    (h : g.highlightedSquares = some []) : highlightOps g i j = [] := by
  unfold highlightOps
  rw [getSquareHighlight_of_empty_map g h]

theorem cellOps_filter_fillRect (g : ChessImageGenerator) (m : Measure) (i j : Nat)
    (h : g.highlightedSquares = some []) :
    (cellOps g m i j).filter isFillRect = darkFillOps g i j := by
  unfold cellOps
  rw [List.filter_append, List.filter_append, List.filter_append, List.filter_append,
    darkFillOps_filter_fillRect, rankLabelOps_filter_fillRect, fileLabelOps_filter_fillRect,
    highlightOps_of_empty_map g i j h, pieceOps_filter_fillRect]
  simp

theorem boardOps_filter_fillRect (g : ChessImageGenerator) (m : Measure)
    (h : g.highlightedSquares = some []) :
    (boardOps g m).filter isFillRect =
      (List.range 8).flatMap (fun i => (List.range 8).flatMap (fun j => darkFillOps g i j)) := by
  unfold boardOps
  rw [filter_flatMap_list]
  apply List.flatMap_congr
  intro i _
  rw [filter_flatMap_list]
  apply List.flatMap_congr
  intro j _
  exact cellOps_filter_fillRect g m i j h

/-- Claim C2: during `generateBuffer` the whole size×size canvas is first
flood-filled with the light color; the rectangle fills issued by the cell
loop are exactly one dark fill for each cell `(i, j)` with `(i + j)` even, at
that cell's pixel rectangle (so light squares are never explicitly redrawn);
and this set of dark fills is computed from grid indices only — it is the
same for both values of the flipped flag.  (Stated for a ready renderer with
no highlights set, so that every rectangle fill in the loop is a dark-square
fill.) -/
theorem c2_base_coloring (g : ChessImageGenerator) (m : Measure)
    (hr : g.ready = true) (hh : g.highlightedSquares = some []) :
    generateBuffer g m =
      Except.ok
        (DrawOp.fillRect g.light 0 0 ((g.size : Rat)) ((g.size : Rat)) :: boardOps g m) ∧
    (boardOps g m).filter isFillRect =
      (List.range 8).flatMap (fun i => (List.range 8).flatMap (fun j =>
        if (i + j) % 2 = 0 then
          [DrawOp.fillRect g.dark (cellX g j) (cellY g i) (cellSize g) (cellSize g)]
        else [])) ∧
    (∀ fl : Bool,
      (boardOps { g with flipped := fl } m).filter isFillRect =
        (boardOps g m).filter isFillRect) := by
  refine ⟨by simp [generateBuffer, hr], ?_, ?_⟩
  · rw [boardOps_filter_fillRect g m hh]
    rfl
  · intro fl
    rw [boardOps_filter_fillRect { g with flipped := fl } m hh,
      boardOps_filter_fillRect g m hh]
    rfl

/-- Claim C2 witness: a ready renderer with no highlights (default options,
empty-grid array load), at a constant metrics function. -/
theorem c2_witness :
    ((runOp (ChessImageGenerator.init {}) (LoadOp.loadArrayOp [])).2).ready = true ∧
    ((runOp (ChessImageGenerator.init {}) (LoadOp.loadArrayOp [])).2).highlightedSquares =
      some [] ∧
    ∀ fl : Bool,
      (boardOps
          { (runOp (ChessImageGenerator.init {}) (LoadOp.loadArrayOp [])).2 with
            flipped := fl } (fun _ => (0, 0))).filter isFillRect =
        (boardOps ((runOp (ChessImageGenerator.init {}) (LoadOp.loadArrayOp [])).2)
          (fun _ => (0, 0))).filter isFillRect :=
  ⟨rfl, rfl,
    (c2_base_coloring ((runOp (ChessImageGenerator.init {}) (LoadOp.loadArrayOp [])).2)
      (fun _ => (0, 0)) rfl rfl).2.2⟩

/-! ### Claim C8: label placement, text, colors, and defaults -/

theorem darkFillOps_filter_fillText (g : ChessImageGenerator) (i j : Nat) :
    (darkFillOps g i j).filter isFillText = [] := by
  unfold darkFillOps
  split <;> rfl

theorem rankLabelOps_filter_fillText (g : ChessImageGenerator) (m : Measure) (i j : Nat) :
    (rankLabelOps g m i j).filter isFillText = rankLabelOps g m i j := by
  unfold rankLabelOps
  split <;> rfl

theorem fileLabelOps_filter_fillText (g : ChessImageGenerator) (m : Measure) (i j : Nat) :
    (fileLabelOps g m i j).filter isFillText = fileLabelOps g m i j := by
  unfold fileLabelOps
  split <;> rfl

theorem highlightOps_filter_fillText (g : ChessImageGenerator) (i j : Nat) :
    (highlightOps g i j).filter isFillText = [] := by
  unfold highlightOps
  cases hc : getSquareHighlight g (squareOfCell g.flipped i j) with
  | none => rfl
  | some s => split <;> first | rfl | (split <;> rfl)

theorem pieceOps_filter_fillText (g : ChessImageGenerator) (i j : Nat) :
    (pieceOps g i j).filter isFillText = [] := by
  unfold pieceOps
  cases hc : chessGet (squareOfCell g.flipped i j) g.chess with
  | none => rfl
  | some p => split <;> first | rfl | (split <;> rfl)

theorem cellOps_filter_fillText (g : ChessImageGenerator) (m : Measure) (i j : Nat) :
    (cellOps g m i j).filter isFillText = rankLabelOps g m i j ++ fileLabelOps g m i j := by
  unfold cellOps
  rw [List.filter_append, List.filter_append, List.filter_append, List.filter_append,
    darkFillOps_filter_fillText, rankLabelOps_filter_fillText, fileLabelOps_filter_fillText,
    highlightOps_filter_fillText, pieceOps_filter_fillText]
  simp

theorem rankLabelOps_eq_of_labels (g : ChessImageGenerator) (m : Measure) (i j : Nat)
    (hl : g.drawLabels = true) :
    rankLabelOps g m i j =
      if j = 0 then
        [DrawOp.fillText (toString (row g.flipped i))
          (if i % 2 = 0 then g.labelDark else g.labelLight)
          (cellX g j + textPadding g)
          (cellY g i + (m (toString (row g.flipped i))).1 + textPadding g)]
      else [] := by
  unfold rankLabelOps
  simp only [hl, eq_self_iff_true, true_and]

theorem fileLabelOps_eq_of_labels (g : ChessImageGenerator) (m : Measure) (i j : Nat)
    (hl : g.drawLabels = true) :
    fileLabelOps g m i j =
      if i = 0 then
        [DrawOp.fillText (col g.flipped j)
          (if j % 2 = 0 then g.labelDark else g.labelLight)
          (cellX g j + cellSize g - (m (col g.flipped j)).2 - textPadding g)
          (cellY g i + cellSize g - textPadding g)]
      else [] := by
  unfold fileLabelOps
  simp only [hl, eq_self_iff_true, true_and]

/-- Claim C8: when labels are enabled, the text draws issued by the render
loop are exactly: a rank label in the cells with draw column `j = 0`, showing
the transformed (logical) rank number, colored `labelDark` for even `i` and
`labelLight` for odd `i`; and a file label in the cells with draw row
`i = 0`, showing the transformed column letter, colored by the parity of
`j` — and, when unset, `labelLight` defaults to the dark square color and
`labelDark` to the light square color. -/
theorem c8_label_semantics (g : ChessImageGenerator) (m : Measure)
    (hl : g.drawLabels = true) :
    (boardOps g m).filter isFillText =
      (List.range 8).flatMap (fun i => (List.range 8).flatMap (fun j =>
        (if j = 0 then
          [DrawOp.fillText (toString (row g.flipped i))
            (if i % 2 = 0 then g.labelDark else g.labelLight)
            (cellX g j + textPadding g)
            (cellY g i + (m (toString (row g.flipped i))).1 + textPadding g)]
        else []) ++
        (if i = 0 then
          [DrawOp.fillText (col g.flipped j)
            (if j % 2 = 0 then g.labelDark else g.labelLight)
            (cellX g j + cellSize g - (m (col g.flipped j)).2 - textPadding g)
            (cellY g i + cellSize g - textPadding g)]
        else []))) ∧
    (∀ o : Options, o.labelLight = none →
      (ChessImageGenerator.init o).labelLight = (ChessImageGenerator.init o).dark) ∧
    (∀ o : Options, o.labelDark = none →
      (ChessImageGenerator.init o).labelDark = (ChessImageGenerator.init o).light) := by
  refine ⟨?_, ?_, ?_⟩
  · unfold boardOps
    rw [filter_flatMap_list]
    apply List.flatMap_congr
    intro i _
    rw [filter_flatMap_list]
    apply List.flatMap_congr
    intro j _
    rw [cellOps_filter_fillText, rankLabelOps_eq_of_labels g m i j hl,
      fileLabelOps_eq_of_labels g m i j hl]
  · intro o h
    show jsOrS o.labelLight (jsOrS o.dark defaultDark) = jsOrS o.dark defaultDark
    rw [h]
    rfl
  · intro o h
    show jsOrS o.labelDark (jsOrS o.light defaultLight) = jsOrS o.light defaultLight
    rw [h]
    rfl

/-- Claim C8 witness: the default renderer draws labels, and its unset label
colors default to the opposite square colors. -/
theorem c8_witness :
    (ChessImageGenerator.init {}).drawLabels = true ∧
    (ChessImageGenerator.init {}).labelLight = (ChessImageGenerator.init {}).dark ∧
    (ChessImageGenerator.init {}).labelDark = (ChessImageGenerator.init {}).light :=
  ⟨rfl,
    (c8_label_semantics (ChessImageGenerator.init {}) (fun _ => (0, 0)) rfl).2.1 {} rfl,
    (c8_label_semantics (ChessImageGenerator.init {}) (fun _ => (0, 0)) rfl).2.2 {} rfl⟩

/-! ### Claim C10: loadArray marks the renderer ready unconditionally -/

theorem darkFillOps_filter_drawImage (g : ChessImageGenerator) (i j : Nat) :
    (darkFillOps g i j).filter isDrawImage = [] := by
  unfold darkFillOps
  split <;> rfl

theorem rankLabelOps_filter_drawImage (g : ChessImageGenerator) (m : Measure) (i j : Nat) :
    (rankLabelOps g m i j).filter isDrawImage = [] := by
  unfold rankLabelOps
  split <;> rfl

theorem fileLabelOps_filter_drawImage (g : ChessImageGenerator) (m : Measure) (i j : Nat) :
    (fileLabelOps g m i j).filter isDrawImage = [] := by
  unfold fileLabelOps
  split <;> rfl

theorem highlightOps_filter_drawImage (g : ChessImageGenerator) (i j : Nat) :
    (highlightOps g i j).filter isDrawImage = [] := by
  unfold highlightOps
  cases hc : getSquareHighlight g (squareOfCell g.flipped i j) with
  | none => rfl
  | some s => split <;> first | rfl | (split <;> rfl)

theorem pieceOps_of_empty_board (g : ChessImageGenerator) (i j : Nat)
    (h : g.chess = []) : pieceOps g i j = [] := by
  unfold pieceOps
  rw [h]
  rfl

theorem cellOps_filter_drawImage_of_empty_board (g : ChessImageGenerator) (m : Measure)
    (i j : Nat) (h : g.chess = []) : (cellOps g m i j).filter isDrawImage = [] := by
  unfold cellOps
  rw [List.filter_append, List.filter_append, List.filter_append, List.filter_append,
    darkFillOps_filter_drawImage, rankLabelOps_filter_drawImage, fileLabelOps_filter_drawImage,
    highlightOps_filter_drawImage, pieceOps_of_empty_board g i j h]
  rfl

theorem placeRow_no_recognized (i j : Nat) (cells : List String) (b : Board)
    (h : ∀ c ∈ cells, ¬(c ≠ "" ∧ black.contains c.toLower)) : placeRow i j cells b = b := by
  induction cells generalizing j with
  | nil => rfl
  | cons c rest ih =>
    show placeRow i (j + 1) rest (placeCell i j c b) = b
    rw [show placeCell i j c b = b from by
      unfold placeCell
      rw [if_neg (h c (List.mem_cons_self c rest))]]
    exact ih (j + 1) (fun c0 hc0 => h c0 (List.mem_cons_of_mem _ hc0))

theorem placeRows_no_recognized (i : Nat) (rows : List (List String)) (b : Board)
    (h : ∀ rw0 ∈ rows, ∀ c ∈ rw0, ¬(c ≠ "" ∧ black.contains c.toLower)) :
    placeRows i rows b = b := by
  induction rows generalizing i with
  | nil => rfl
  | cons rw0 rest ih =>
    show placeRows (i + 1) rest (placeRow i 0 rw0 b) = b
    rw [placeRow_no_recognized i 0 rw0 b (h rw0 (List.mem_cons_self rw0 rest))]
    exact ih (i + 1) (fun r hr => h r (List.mem_cons_of_mem _ hr))

theorem loadArray_no_recognized (b : Board) (grid : List (List String))
    (h : ∀ rw0 ∈ grid, ∀ c ∈ rw0, ¬(c ≠ "" ∧ black.contains c.toLower)) :
    loadArray b grid = [] := by
  unfold loadArray chessClear
  exact placeRows_no_recognized 0 grid _ h

/-- Claim C10: `loadArray` marks the renderer ready unconditionally, for
every input grid — so a following `generateBuffer` succeeds (it never fails
with the not-ready error) — and for a grid with no recognized piece
characters (in particular the empty grid) the board is left empty and the
render issues no piece sprite draws at all. -/
theorem c10_loadArray_unconditional_ready (g : ChessImageGenerator)
    (grid : List (List String)) :
    ((runOp g (LoadOp.loadArrayOp grid)).2).ready = true ∧
    (∀ m : Measure,
      generateBuffer ((runOp g (LoadOp.loadArrayOp grid)).2) m ≠
        Except.error RenderError.notReady) ∧
    ((∀ rw0 ∈ grid, ∀ c ∈ rw0, ¬(c ≠ "" ∧ black.contains c.toLower)) →
      ((runOp g (LoadOp.loadArrayOp grid)).2).chess = [] ∧
      ∀ m : Measure,
        (boardOps ((runOp g (LoadOp.loadArrayOp grid)).2) m).filter isDrawImage = []) := by
  refine ⟨rfl, fun m => by simp [generateBuffer, runOp], fun h => ?_⟩
  have hchess : ((runOp g (LoadOp.loadArrayOp grid)).2).chess = [] := by
    show loadArray g.chess grid = []
    exact loadArray_no_recognized g.chess grid h
  refine ⟨hchess, fun m => ?_⟩
  unfold boardOps
  rw [filter_flatMap_list]
  rw [show (fun i => ((List.range 8).flatMap
      (fun j => cellOps ((runOp g (LoadOp.loadArrayOp grid)).2) m i j)).filter isDrawImage) =
      (fun i => ((List.range 8).flatMap (fun j =>
        (cellOps ((runOp g (LoadOp.loadArrayOp grid)).2) m i j).filter isDrawImage))) from by
    funext i
    rw [filter_flatMap_list]]
  have hcell : ∀ i j : Nat,
      (cellOps ((runOp g (LoadOp.loadArrayOp grid)).2) m i j).filter isDrawImage = [] :=
    fun i j => cellOps_filter_drawImage_of_empty_board _ m i j hchess
  simp [hcell]

/-- Claim C10 witness: the empty grid loaded on a fresh renderer — ready,
empty board, and no sprite draws. -/
theorem c10_witness :
    ((runOp (ChessImageGenerator.init {}) (LoadOp.loadArrayOp [])).2).ready = true ∧
    ((runOp (ChessImageGenerator.init {}) (LoadOp.loadArrayOp [])).2).chess = [] ∧
    (boardOps ((runOp (ChessImageGenerator.init {}) (LoadOp.loadArrayOp [])).2)
      (fun _ => (0, 0))).filter isDrawImage = [] := by
  have h := c10_loadArray_unconditional_ready (ChessImageGenerator.init {}) []
  have h3 := h.2.2 (by intro rw0 hrw0 c hc hcon; simp at hrw0)
  exact ⟨h.1, h3.1, h3.2 _⟩

/-! ### Claim C4: highlight resolution -/

/-- Claim C4: `getSquareHighlight` returns no highlight when the highlight
map is unset, when the square is not a key of it, or when its value is falsy;
returns the value itself when the (truthy) value is a string; and returns the
configured default highlight color for any other truthy value.  Consequently
an empty map resolves every square to no highlight; a map binding "e4" to
`true` gives the default highlight color at e4 and none elsewhere; and a map
binding "e4" to "#ff0000" gives exactly "#ff0000" at e4 and none
elsewhere. -/
theorem c4_highlight_resolution :
    (∀ g : ChessImageGenerator, ∀ sq : String,
      g.highlightedSquares = none → getSquareHighlight g sq = none) ∧
    (∀ g : ChessImageGenerator, ∀ hs : List (String × JSVal), ∀ sq : String,
      g.highlightedSquares = some hs → hs.lookup sq = none →
      getSquareHighlight g sq = none) ∧
    (∀ g : ChessImageGenerator, ∀ hs : List (String × JSVal), ∀ sq : String, ∀ v : JSVal,
      g.highlightedSquares = some hs → hs.lookup sq = some v → truthy v = false →
      getSquareHighlight g sq = none) ∧
    (∀ g : ChessImageGenerator, ∀ hs : List (String × JSVal), ∀ sq s : String,
      sq ≠ "" → g.highlightedSquares = some hs → hs.lookup sq = some (JSVal.vStr s) →
      truthy (JSVal.vStr s) = true → getSquareHighlight g sq = some s) ∧
    (∀ g : ChessImageGenerator, ∀ hs : List (String × JSVal), ∀ sq : String, ∀ v : JSVal,
      sq ≠ "" → g.highlightedSquares = some hs → hs.lookup sq = some v →
      truthy v = true → (∀ s, v ≠ JSVal.vStr s) →
      getSquareHighlight g sq = some g.highlight) ∧
    (∀ g : ChessImageGenerator, g.highlightedSquares = some [] →
      ∀ sq : String, getSquareHighlight g sq = none) ∧
    (∀ g : ChessImageGenerator, g.highlightedSquares = some [("e4", JSVal.vBool true)] →
      getSquareHighlight g "e4" = some g.highlight ∧
      ∀ sq : String, sq ≠ "e4" → getSquareHighlight g sq = none) ∧
    (∀ g : ChessImageGenerator, g.highlightedSquares = some [("e4", JSVal.vStr "#ff0000")] →
      getSquareHighlight g "e4" = some "#ff0000" ∧
      ∀ sq : String, sq ≠ "e4" → getSquareHighlight g sq = none) := by
  refine ⟨?_, ?_, ?_, ?_, ?_, ?_, ?_, ?_⟩
  · intro g sq h
    unfold getSquareHighlight
    rw [h]
  · intro g hs sq h hl
    unfold getSquareHighlight
    rw [h]
    by_cases hq : sq = ""
    · simp [hq]
    · simp [hq, hl]
  · intro g hs sq v h hl htr
    unfold getSquareHighlight
    rw [h]
    by_cases hq : sq = ""
    · simp [hq]
    · simp [hq, hl, htr]
  · intro g hs sq s hq h hl htr
    unfold getSquareHighlight
    rw [h]
    simp [hq, hl, htr]
  · intro g hs sq v hq h hl htr hv
    unfold getSquareHighlight
    rw [h]
    simp only [hq, if_neg hq, hl, htr]
    cases v with
    | vStr s => exact absurd rfl (hv s)
    | vNull => simp
    | vUndefined => simp
    | vBool b => simp
    | vNum n => simp
    | vObj => simp
  · intro g h sq
    exact getSquareHighlight_of_empty_map g h sq
  · intro g h
    constructor
    · unfold getSquareHighlight
      rw [h]
      simp [List.lookup, truthy]
    · intro sq hsq
      unfold getSquareHighlight
      rw [h]
      by_cases hq : sq = ""
      · simp [hq]
      · have hbe : ((sq == "e4") = false) := beq_eq_false_iff_ne.mpr hsq
        simp [hq, List.lookup, hbe]
  · intro g h
    constructor
    · unfold getSquareHighlight
      rw [h]
      simp [List.lookup, truthy]
    · intro sq hsq
      unfold getSquareHighlight
      rw [h]
      by_cases hq : sq = ""
      · simp [hq]
      · have hbe : ((sq == "e4") = false) := beq_eq_false_iff_ne.mpr hsq
        simp [hq, List.lookup, hbe]

/-- Claim C4 witness: the three example maps evaluated at "e4" and at another
square, on a renderer constructed with default options. -/
theorem c4_witness :
    getSquareHighlight
        (setHighlightedSquares (ChessImageGenerator.init {}) (some [("e4", JSVal.vBool true)]))
        "e4" =
      some (ChessImageGenerator.init {}).highlight ∧
    getSquareHighlight
        (setHighlightedSquares (ChessImageGenerator.init {}) (some [("e4", JSVal.vBool true)]))
        "a1" =
      none ∧
    getSquareHighlight
        (setHighlightedSquares (ChessImageGenerator.init {})
          (some [("e4", JSVal.vStr "#ff0000")]))
        "e4" =
      some "#ff0000" ∧
    getSquareHighlight (setHighlightedSquares (ChessImageGenerator.init {}) (some [])) "b2" =
      none := by
  have h := c4_highlight_resolution
  refine ⟨(h.2.2.2.2.2.2.1 _ rfl).1, (h.2.2.2.2.2.2.1 _ rfl).2 "a1" (by decide),
    (h.2.2.2.2.2.2.2 _ rfl).1, h.2.2.2.2.2.1 _ rfl "b2"⟩

end ChessImage
